import Mathlib

set_option autoImplicit false

/-!
A shallow embedding of the harbourmaster repository (harbourmaster.py,
pylibs/harbourmaster/info.py, pylibs/harbourmaster/config.py).

Python strings are modelled as Lean `String`/`List Char` (all data handled by
the program is ASCII), Python `None`/numbers/strings/lists/dicts as the
inductive `JVal`, dicts as insertion-ordered association lists without
duplicate keys (Python 3.7+ dict semantics), and code that can raise an
exception as `Option`/`Except`-valued functions where `none`/`.error` marks
the raised exception.
-/

namespace Harbourmaster

/-! ## Python string primitives -/

/-- The ASCII whitespace characters recognised by Python's `str.strip`,
`str.isspace` and the regex class `\s`.  (Python also accepts some Unicode
whitespace; every input handled by this program is ASCII.) -/
def pyIsSpace (c : Char) : Bool :=
  c = ' ' || c = '\t' || c = '\n' || c = '\r' || c = '\x0b' || c = '\x0c'

/-- Python `s.strip()`: remove leading and trailing whitespace. -/
def pyStrip (s : String) : String :=
  ⟨((s.data.dropWhile pyIsSpace).reverse.dropWhile pyIsSpace).reverse⟩

/-- A character of the regex class `\w` (ASCII range): letters, digits, `_`. -/
def isWordChar (c : Char) : Bool :=
  c.isAlphanum || c = '_'

/-- Python `pat in s` on lists of characters: `pat` occurs as a contiguous
substring. -/
def listContainsSub (pat : List Char) : List Char → Bool
  | [] => pat.isEmpty
  | c :: rest => pat.isPrefixOf (c :: rest) || listContainsSub pat rest

/-- Python `pat in s` for strings. -/
def strContains (s pat : String) : Bool :=
  listContainsSub pat.data s.data

/-- Python `s.startswith(pat)`. -/
def pyStartsWith (s pat : String) : Bool :=
  pat.data.isPrefixOf s.data

/-- Python `s.endswith(pat)`. -/
def pyEndsWith (s pat : String) : Bool :=
  pat.data.isSuffixOf s.data

/-- Python `s.lower()` (and `str.casefold`, which agrees with it on the
ASCII data this program handles). -/
def pyLower (s : String) : String :=
  ⟨s.data.map Char.toLower⟩

/-- Python `s.split(sep)` for a one-character separator: `""` splits to
`[""]`, separators at the ends produce empty fields. -/
def splitOnChar (sep : Char) : List Char → List (List Char)
  | [] => [[]]
  | c :: rest =>
      if c = sep then [] :: splitOnChar sep rest
      else
        match splitOnChar sep rest with
        | r :: rs => (c :: r) :: rs
        | [] => [[c]]

/-- Python `s.split(sep)` on strings. -/
def pySplit (sep : Char) (s : String) : List String :=
  (splitOnChar sep s.data).map (fun cs => ⟨cs⟩)

/-- Python `s.rsplit('/', 1)[-1]`: the part of `s` after the last `/`
(the whole string when `s` has no `/`). -/
def rsplitLastSlash (s : String) : String :=
  ⟨(s.data.reverse.takeWhile (fun c => c ≠ '/')).reverse⟩

/-! ## Python values and dicts -/

/-- A Python value as handled by this program: `None`, bools, ints, strings,
lists, dicts.  (The program never handles floats in the code under
verification.) -/
inductive JVal where
  | null
  | bool (b : Bool)
  | int (n : Int)
  | str (s : String)
  | list (xs : List JVal)
  | obj (kvs : List (String × JVal))

/-- A Python dict with string keys, as an insertion-ordered association list
without duplicate keys. -/
abbrev JObj := List (String × JVal)

/-- Python `d.get(k)` / `d[k]` lookup (first matching key). -/
def alGet {α : Type} : List (String × α) → String → Option α
  | [], _ => none
  | (k2, v) :: rest, k => if k2 = k then some v else alGet rest k

/-- Python `d[k] = v`: replace the value in place when the key exists,
otherwise append the new key at the end (insertion order). -/
def alSet {α : Type} : List (String × α) → String → α → List (String × α)
  | [], k, v => [(k, v)]
  | (k2, v2) :: rest, k, v =>
      if k2 = k then (k, v) :: rest else (k2, v2) :: alSet rest k v

/-- Python `del d[k]`: drop the (unique) entry with the given key. -/
def alDel {α : Type} : List (String × α) → String → List (String × α)
  | [], _ => []
  | (k2, v2) :: rest, k => if k2 = k then rest else (k2, v2) :: alDel rest k

/-- Python `k in d`. -/
def alHas {α : Type} (o : List (String × α)) (k : String) : Bool :=
  (alGet o k).isSome

/-- Python `v == n` for an int literal `n` (Python's `True == 1` and
`False == 0` hold). -/
def pyEqInt (n : Int) : JVal → Bool
  | .int m => m = n
  | .bool b => (if b then (1 : Int) else 0) = n
  | _ => false

/-- Python `v == "lit"` for a string literal. -/
def pyEqStr (s : String) : JVal → Bool
  | .str t => t = s
  | _ => false

/-- Python `v is None`. -/
def isNone : JVal → Bool
  | .null => true
  | _ => false

/-! ## pylibs/harbourmaster/info.py : PORT_INFO defaults -/

/-- `PORT_INFO_ROOT_ATTRS` (info.py lines 16-24), in dict insertion order. -/
def PORT_INFO_ROOT_ATTRS : JObj :=
  [("version", .int 2), ("name", .null), ("items", .null), ("items_opt", .null),
   ("attr", .obj []), ("status", .null), ("files", .null)]

/-- `PORT_INFO_ATTR_ATTRS` (info.py lines 26-36), in dict insertion order. -/
def PORT_INFO_ATTR_ATTRS : JObj :=
  [("title", .str ""), ("desc", .str ""), ("inst", .str ""), ("genres", .list []),
   ("porter", .str ""), ("image", .obj []), ("rtr", .bool false),
   ("runtime", .null), ("reqs", .list [])]

/-! ## pylibs/harbourmaster/info.py : port_info_load (dict input) -/

/-- The items / items_opt sanitization loop of `port_info_load`
(info.py lines 137-160 and 162-185), faithful to the index management of the
Python `while` loop: the first three bad cases (`startswith('/')`,
`startswith('../')`, `'/../' in item`) use `del xs[i]; continue`, so the
element sliding into position `i` is examined next; the `item == ""` case
deletes WITHOUT `continue`, so the following `i += 1` skips (keeps,
unexamined) the element that slid into position `i`.  A non-string element
raises `AttributeError` on `.startswith` (`none`). -/
def sanitizeItems : List JVal → Option (List JVal)
  | [] => some []
  | .str s :: rest =>
      if pyStartsWith s "/" then sanitizeItems rest
      else if pyStartsWith s "../" then sanitizeItems rest
      else if strContains s "/../" then sanitizeItems rest
      else if s = "" then
        match rest with
        | [] => some []
        | y :: rest2 => (sanitizeItems rest2).map (fun r => y :: r)
      else (sanitizeItems rest).map (fun r => JVal.str s :: r)
  | _ :: _ => none

/-- The genre filter of `port_info_load` (info.py lines 190-196): keep only
casefolded genres found in the vocabulary `hmGenres`, appending the
casefolded form.  `casefold` is modelled as ASCII `toLower`.  A non-string
genre raises `AttributeError` (`none`). -/
def filterGenres (hmGenres : List String) : List JVal → Option (List JVal)
  | [] => some []
  | .str s :: rest =>
      (filterGenres hmGenres rest).map
        (fun r => if hmGenres.contains (pyLower s) then JVal.str (pyLower s) :: r else r)
  | _ :: _ => none

/-- The version-1 → version-2 migration of `port_info_load`
(info.py lines 98-115).  Triggered when `info.get('version') == 1` or
`'source' in info`.  `none` models the exception paths: a missing or
non-string `source` (KeyError / AttributeError on `.rsplit`), and a present
non-dict `attr` (AttributeError on `.get`). -/
def migrateV1 (info : JObj) : Option JObj :=
  if pyEqInt 1 ((alGet info "version").getD .null) || alHas info "source" then
    match alGet info "source" with
    | some (.str src) =>
        let i1 := alSet info "name" (.str (rsplitLastSlash src))
        let i2 := alDel i1 "source"
        let i3 := alSet i2 "version" (.int 2)
        let i4 :=
          match alGet i3 "md5" with
          | none => i3
          | some .null => i3
          | some m =>
              alDel (alSet i3 "status"
                (.obj [("source", .str "Unknown"), ("md5", m), ("status", .str "Unknown")])) "md5"
        match alGet i4 "attr" with
        | none => some i4
        | some (.obj a) =>
            if pyEqStr "blank" ((alGet a "runtime").getD .null) then
              some (alSet i4 "attr" (.obj (alSet a "runtime" .null)))
            else some i4
        | some _ => none
    | _ => none
  else some info

/-- The `reqs` normalisation of `port_info_load` (info.py lines 117-120): a
dict-valued `attr.reqs` is replaced by the list of its keys.  A present
non-dict `attr` raises `AttributeError` on `.get` (`none`). -/
def normalizeReqs (info : JObj) : Option JObj :=
  match alGet info "attr" with
  | none => some info
  | some (.obj a) =>
      match alGet a "reqs" with
      | some (.obj r) =>
          some (alSet info "attr" (.obj (alSet a "reqs" (.list (r.map (fun kv => JVal.str kv.1))))))
      | _ => some info
  | some _ => none

/-- `port_info_load` (info.py lines 40-198) for a dict argument (the
`isinstance(raw_info, dict)` branch; the path/text branches decode through
`json_safe_load`, which lives outside src/, before reaching the same code).
`hmGenres` is the genre vocabulary `HM_GENRES`, defined in
pylibs/harbourmaster/util.py which is not part of src/; no claim in this
development depends on its contents, so it is passed as a parameter.
`none` models an uncaught exception. -/
def port_info_load (hmGenres : List String) (raw : JObj) : Option JObj :=
  (migrateV1 raw).bind fun info1 =>
  (normalizeReqs info1).bind fun info2 =>
  -- "This strips out extra stuff": rebuild from the root defaults
  -- (info.py lines 122-129); `attr_default.copy()` only guards against
  -- shared mutable defaults, which a by-value model does not need.
  let root : JObj := PORT_INFO_ROOT_ATTRS.map (fun kd => (kd.1, (alGet info2 kd.1).getD kd.2))
  -- attr defaults (info.py lines 131-135); `port_info['attr'][attr] = ...`
  -- requires the attr value to support item assignment: it is either the
  -- dict taken from `info` (a non-dict attr already raised in
  -- `normalizeReqs`) or the default `{}`.
  match alGet root "attr" with
  | some (.obj pa) =>
      let infoAttr : JObj :=
        match alGet info2 "attr" with
        | some (.obj a) => a
        | _ => []
      let pa2 := PORT_INFO_ATTR_ATTRS.foldl
        (fun acc kd => alSet acc kd.1 ((alGet infoAttr kd.1).getD kd.2)) pa
      let out1 := alSet root "attr" (.obj pa2)
      -- items sanitization (info.py lines 137-160), only when a list
      (match alGet out1 "items" with
        | some (.list xs) => (sanitizeItems xs).map (fun xs2 => alSet out1 "items" (.list xs2))
        | _ => some out1).bind fun out2 =>
      -- items_opt sanitization plus the empty-list → None rewrite
      -- (info.py lines 162-188)
      (match alGet out2 "items_opt" with
        | some (.list xs) =>
            (sanitizeItems xs).map (fun (xs2 : List JVal) =>
              if xs2.isEmpty then alSet out2 "items_opt" .null
              else alSet out2 "items_opt" (.list xs2))
        | _ => some out2).bind fun out3 =>
      -- genre filtering (info.py lines 190-196), only when a list
      (match alGet out3 "attr" with
        | some (.obj a3) =>
            match alGet a3 "genres" with
            | some (.list gs) =>
                (filterGenres hmGenres gs).map (fun gs2 =>
                  alSet out3 "attr" (.obj (alSet a3 "genres" (.list gs2))))
            | _ => some out3
        | _ => some out3)
  | _ => none

/-! ## pylibs/harbourmaster/info.py : canonical records and port_info_merge

The merge claims quantify over canonical PortInfo records (the version-2
schema of spec §3), so the merge is embedded over a typed record; every
equation below is the Python branch cascade of `port_info_merge`
(info.py lines 202-258) specialised to the canonical type of that field,
with the Python dynamic-type tests resolved as noted. -/

/-- The canonical `status` record promoted by the v1 → v2 migration. -/
structure PortStatus where
  source : String
  md5 : String
  status : String
deriving DecidableEq

/-- The canonical `attr` record (spec §3; defaults in
`PORT_INFO_ATTR_ATTRS`). `image` and the entries of `files` are opaque
string-keyed records here. -/
structure PortAttr where
  title : String
  desc : String
  inst : String
  genres : List String
  porter : String
  image : List (String × String)
  rtr : Bool
  runtime : Option String
  reqs : List String
deriving DecidableEq

/-- The canonical root record (spec §3; defaults in
`PORT_INFO_ROOT_ATTRS`). `none` models Python `None`. -/
structure PortInfo where
  version : Int
  name : Option String
  items : Option (List String)
  items_opt : Option (List String)
  attr : PortAttr
  status : Option PortStatus
  files : Option (List (String × String))
deriving DecidableEq

/-- Root-loop merge rule for `version` (ints on both sides).  An int never
equals `None`/`""`/`[]`, so the first catch-all branch (info.py line 218)
never fires; the boolean branch (line 222) fires exactly when both values
are `0` or `1`, because Python's `True == 1` and `False == 0`; the
str/list/dict branches never fire for ints. -/
def mergeVersion (a b : Int) : Int :=
  if (b = 1 ∨ b = 0) ∧ (a = 1 ∨ a = 0) then b else a

/-- Attr-loop merge rule for `runtime` (a nullable string).  The attr loop
has no catch-all branch: a `None` on the right matches no branch and leaves
the left value; a string on the right overwrites a left value of `None` or
`""` (info.py line 246). -/
def mergeRuntime (a b : Option String) : Option String :=
  match b with
  | none => a
  | some s => if a = none ∨ a = some "" then some s else a

/-- The attr loop of `port_info_merge` (info.py lines 238-256).  Both attr
dicts of a canonical record hold exactly the canonical keys, so the
`key_b not in port_info['attr']` guard never skips.  For string fields only
the `isinstance(value_b, str)` branch (line 246) can fire, and its guard
`in ("", None)` reduces to `= ""`; for list fields only line 250 with
guard `= []`; for the dict-valued `image` only line 254 with guard `= []`;
for the bool `rtr` the boolean branch (line 242) always fires, so the right
value always overwrites.  `value_b[:]` / `value_b.copy()` are identity
by value. -/
def mergeAttr (a b : PortAttr) : PortAttr :=
  { title := if a.title = "" then b.title else a.title
    desc := if a.desc = "" then b.desc else a.desc
    inst := if a.inst = "" then b.inst else a.inst
    genres := if a.genres = [] then b.genres else a.genres
    porter := if a.porter = "" then b.porter else a.porter
    image := if a.image = [] then b.image else a.image
    rtr := b.rtr
    runtime := mergeRuntime a.runtime b.runtime
    reqs := if a.reqs = [] then b.reqs else a.reqs }

/-- `port_info_merge` (info.py lines 202-258) on canonical records, with
`other` already a dict (the str/path argument forms delegate to
`port_info_parse`, outside src/).  The root loop iterates
`PORT_INFO_ROOT_ATTRS` in insertion order and `break`s on reaching `attr`
(line 213), so only `version`, `name`, `items` and `items_opt` are
processed and `status` and `files` are never touched.  For the nullable
fields the catch-all branch (line 218, `None`/`""`/`[]`) is the only branch
that can fire at their canonical types and it copies the right value
unconditionally. -/
def port_info_merge (base other : PortInfo) : PortInfo :=
  { version := mergeVersion base.version other.version
    name := if base.name = none ∨ base.name = some "" then other.name else base.name
    items := if base.items = none ∨ base.items = some [] then other.items else base.items
    items_opt :=
      if base.items_opt = none ∨ base.items_opt = some [] then other.items_opt
      else base.items_opt
    attr := mergeAttr base.attr other.attr
    status := base.status
    files := base.files }

/-- Convenience projection: a root field of a load result. -/
def loadGet (r : Option JObj) (k : String) : Option JVal :=
  r.bind (fun o => alGet o k)

/-- Convenience projection: field `k2` inside the dict stored at root field
`k` of a load result. -/
def loadGet2 (r : Option JObj) (k k2 : String) : Option JVal :=
  r.bind (fun o =>
    match alGet o k with
    | some (.obj a) => alGet a k2
    | _ => none)

/-! ## harbourmaster.py : PortMasterV1._parse_port_info

The parser first runs Python
`re.findall(r'(?:^|\s)(\w+)=\"(.+?)"(?=\s+\w+=|$)', text.strip())`
(harbourmaster.py line 227).  The regex engine is embedded below for this
one pattern: scan left to right for the leftmost match, continue after each
match.  A match is `^` (only at the very start) or one consumed whitespace
character, a maximal nonempty word-character run (greedy `\w+` followed by
the literal `=` cannot match a shorter run), `="`, a lazily extended
nonempty value of non-newline characters, a closing `"`, and the
zero-width lookahead `\s+\w+=` or `$`. -/

/-- The regex lookahead `(?=\s+\w+=|$)`.  `$` matches at the end of the
string or just before a single trailing newline (no MULTILINE flag). -/
def lookaheadOk (cs : List Char) : Bool :=
  (match cs with
   | c :: _ =>
      pyIsSpace c &&
      (let afterSp := cs.dropWhile pyIsSpace
       match afterSp with
       | w :: _ =>
          isWordChar w &&
          (match afterSp.dropWhile isWordChar with
           | '=' :: _ => true
           | _ => false)
       | [] => false)
   | [] => false)
  || cs.isEmpty || cs == ['\n']

/-- Lazy search for the closing quote: after at least one value character
has been consumed (`.+?`), close at the first `"` whose lookahead succeeds;
otherwise the `"` itself is consumed by `.` and the search continues.  `.`
never matches a newline, so a bare newline fails the whole match. -/
def valClose (acc : List Char) : List Char → Option (List Char × List Char)
  | [] => none
  | c :: rest =>
      if c = '"' && lookaheadOk rest then some (acc.reverse, rest)
      else if c = '\n' then none
      else valClose (c :: acc) rest

/-- Match `(\w+)=\"(.+?)"(?=\s+\w+=|$)` at the current position, returning
the two capture groups and the characters after the closing quote. -/
def matchBody (cs : List Char) : Option ((String × String) × List Char) :=
  let key := cs.takeWhile isWordChar
  if key.isEmpty then none
  else
    match cs.drop key.length with
    | '=' :: '"' :: c :: rest =>
        if c = '\n' then none
        else (valClose [c] rest).map (fun p => ((⟨key⟩, ⟨p.1⟩), p.2))
    | _ => none

/-- Try a match starting here: the `^` alternative applies only at the very
start of the scanned string; the `\s` alternative consumes one whitespace
character first. -/
def tryMatch (cs : List Char) (atStart : Bool) : Option ((String × String) × List Char) :=
  match (if atStart then matchBody cs else none) with
  | some r => some r
  | none =>
      match cs with
      | c :: rest => if pyIsSpace c then matchBody rest else none
      | [] => none

/-- The `re.findall` scan: try each position left to right, resuming right
after every successful match.  Every step consumes at least one character,
so fuel `length + 1` (supplied by `reFindAll`) never runs out. -/
def findAll : Nat → List Char → Bool → List (String × String)
  | 0, _, _ => []
  | fuel + 1, cs, atStart =>
      match tryMatch cs atStart with
      | some (kv, rest) => kv :: findAll fuel rest false
      | none =>
          match cs with
          | [] => []
          | _ :: rest => findAll fuel rest false

/-- `re.findall(r'(?:^|\s)(\w+)=\"(.+?)"(?=\s+\w+=|$)', s)`. -/
def reFindAll (s : String) : List (String × String) :=
  findAll (s.data.length + 1) s.data true

/-- A value stored in the info dict built by `_parse_port_info`: a string,
a boolean flag, or a list of strings (`genres`). -/
inductive PVal where
  | str (s : String)
  | flag (b : Bool)
  | strs (xs : List String)
deriving DecidableEq

/-- The parser's output defaults (harbourmaster.py lines 216-225), in dict
insertion order. -/
def PARSE_DEFAULTS : List (String × PVal) :=
  [("title", .str ""), ("desc", .str ""), ("file", .str ""), ("porter", .str ""),
   ("opengl", .flag false), ("power", .flag false), ("rtr", .flag false),
   ("genres", .strs [])]

/-- Python `value[:-2]`. -/
def pySliceDropLast2 (s : String) : String :=
  ⟨s.data.take (s.data.length - 2)⟩

/-- Python `value.replace('_', ' ')`. -/
def replaceUnderscores (s : String) : String :=
  ⟨s.data.map (fun c => if c = '_' then ' ' else c)⟩

/-- Python `value.replace('%20', '.')`: leftmost non-overlapping, single
pass. -/
def replacePct20 : List Char → List Char
  | '%' :: '2' :: '0' :: rest => '.' :: replacePct20 rest
  | c :: rest => c :: replacePct20 rest
  | [] => []

/-- Python `value.replace('..', '.')`: leftmost non-overlapping, single
pass. -/
def replaceDotDot : List Char → List Char
  | '.' :: '.' :: rest => '.' :: replaceDotDot rest
  | c :: rest => c :: replaceDotDot rest
  | [] => []

/-- The body of the parser loop (harbourmaster.py lines 227-249) for one
`(key, value)` pair: set the `opengl`/`power` flags for `title_f`/`title_p`,
apply the alias map `title_f`/`title_p` → `title`, `locat` → `file`, strip
the last two characters of a title and turn `_` into spaces, decode `%20`,
rewrite `runtype` to `rtr := True`, split `genres` on commas, then store
under the final key. -/
def parseStep (info : List (String × PVal)) (kv : String × String) : List (String × PVal) :=
  let kl := pyLower kv.1
  let info1 := if kl = "title_f" then alSet info "opengl" (.flag true) else info
  let info2 := if kl = "title_p" then alSet info1 "power" (.flag true) else info1
  let key :=
    if kl = "title_f" then "title"
    else if kl = "title_p" then "title"
    else if kl = "locat" then "file"
    else kl
  let v1 := if key = "title" then replaceUnderscores (pySliceDropLast2 kv.2) else kv.2
  let v2 := if strContains v1 "%20" then ⟨replaceDotDot (replacePct20 v1.data)⟩ else v1
  if key = "runtype" then alSet info2 "rtr" (.flag true)
  else if key = "genres" then alSet info2 "genres" (.strs (pySplit ',' v2))
  else alSet info2 key (.str v2)

/-- `PortMasterV1._parse_port_info` (harbourmaster.py lines 208-251). -/
def parse_port_info (text : String) : List (String × PVal) :=
  (reFindAll (pyStrip text)).foldl parseStep PARSE_DEFAULTS

/-! ## harbourmaster.py : staleness check at construction -/

/-- `UPDATE_FREQUENCY` (harbourmaster.py line 28), in seconds; the source
comment reads "Only check automatically once a day.". -/
def UPDATE_FREQUENCY : Int := 60 * 60 * 22

/-- `datetime_compare(time_a, time_b)` (harbourmaster.py lines 94-103) with
both datetimes modelled as whole seconds on a common clock.  The Python
function returns `(time_b - time_a).seconds`: the seconds FIELD of the
normalised timedelta, i.e. the elapsed seconds floor-modulo 86400 with the
day component discarded (not `.total_seconds()`). -/
def datetime_compare (time_a time_b : Int) : Int :=
  (time_b - time_a) % 86400

/-- `PortMasterV1.VERSION` (harbourmaster.py line 131). -/
def PortMasterV1.VERSION : Int := 2

/-- What `PortMasterV1.__init__` does after storing its arguments. -/
inductive InitAction where
  /-- `self.update()` is called: a synchronous network fetch. -/
  | update
  /-- no network call; the cached payload in `config['data']` is loaded. -/
  | loadCache
deriving DecidableEq

/-- The decision cascade of `PortMasterV1.__init__`
(harbourmaster.py lines 139-152): schema-version mismatch, never-checked,
or `datetime_compare(last_checked) > UPDATE_FREQUENCY` trigger `update()`;
otherwise the cached payload is loaded with no network access.  `now` is
`datetime.datetime.now()` in seconds. -/
def portmaster_init_action (version : Int) (last_checked : Option Int) (now : Int) :
    InitAction :=
  if version ≠ PortMasterV1.VERSION then .update
  else
    match last_checked with
    | none => .update
    | some lc => if datetime_compare lc now > UPDATE_FREQUENCY then .update else .loadCache

/-! ## harbourmaster.py : PortMasterV1.update and port_info -/

/-- One `data['data']`/CatalogEntry value built from a release asset
(harbourmaster.py lines 168-172). -/
structure CatalogEntry where
  name : String
  size : Nat
  url : String
deriving DecidableEq

/-- The `data` payload of a persisted source document
(harbourmaster.py lines 194-197). -/
structure ConfigData where
  ports : List String
  utils : List String
  info : List (String × List (String × PVal))
  data : List (String × CatalogEntry)
deriving DecidableEq

/-- The persisted per-source document (those fields of it that
`PortMasterV1` reads or writes; the registry addressing key is not used by
these claims). -/
structure SourceConfig where
  name : String
  url : String
  version : Int
  last_checked : Option Int
  data : ConfigData
deriving DecidableEq

/-- A `PortMasterV1` instance: the in-memory indexes `self._data`,
`self._info`, `self.ports`, `self.utils`, the in-memory `self._config`, and
the on-disk contents of the backing document file (written only by
`_save`). -/
structure SourceState where
  mem_data : List (String × CatalogEntry)
  mem_info : List (String × List (String × PVal))
  ports : List String
  utils : List String
  config : SourceConfig
  file : SourceConfig
deriving DecidableEq

/-- One asset of the fetched release manifest (`data['assets']`). -/
structure Asset where
  name : String
  size : Nat
  browser_download_url : String
deriving DecidableEq

/-- The remote responses an `update()` call observes.  `manifest` is the
result of `fetch_json(config['url'])` (`none` when the GET was non-200 and
`fetch` returned `None`); `portsMd` the result of `fetch_text` on the
ports.md asset url; `now` the clock at the `last_checked` stamp. -/
structure UpdateEnv where
  manifest : Option (List Asset)
  portsMd : Option String
  now : Int
deriving DecidableEq

/-- `PortMasterV1.clean_name` (harbourmaster.py lines 154-155). -/
def clean_name (text : String) : String :=
  pyLower text

/-- The asset loop body of `update()` (harbourmaster.py lines 167-177):
index the entry under the cleaned name and append `.squashfs` assets to
`utils`. -/
def assetStep (s : SourceState) (asset : Asset) : SourceState :=
  let entry : CatalogEntry := ⟨asset.name, asset.size, asset.browser_download_url⟩
  let s1 := { s with mem_data := alSet s.mem_data (clean_name asset.name) entry }
  if pyEndsWith (pyLower asset.name) ".squashfs" then
    { s1 with utils := s1.utils ++ [clean_name asset.name] }
  else s1

/-- One line of the ports.md loop (harbourmaster.py lines 185-190): parse,
key by the cleaned `file` field, store and append.  The parser always
stores a string under `"file"`, so the `none` (exception) arm is
unreachable. -/
def infoLine (s : SourceState) (line : String) : Option SourceState :=
  let info := parse_port_info line
  match alGet info "file" with
  | some (.str f) =>
      let key := clean_name f
      some { s with mem_info := alSet s.mem_info key info, ports := s.ports ++ [key] }
  | _ => none

/-- The ports.md loop over the stripped nonempty lines;  `.error` carries
the state at an (unreachable) exception. -/
def infoLoop (s : SourceState) : List String → Except SourceState SourceState
  | [] => .ok s
  | l :: rest =>
      match infoLine s l with
      | some s2 => infoLoop s2 rest
      | none => .error s

/-- `PortMasterV1.update` (harbourmaster.py lines 157-202).  `.error st`
models an uncaught exception escaping `update()` with the object left in
state `st`: a failed manifest fetch leaves `data = None` and
`data['assets']` raises TypeError — but only AFTER lines 161-164 have
already reset the four in-memory indexes to empty; a manifest without a
`ports.md` asset raises KeyError; a failed ports.md fetch leaves
`fetch_text(...) = None` and `.split` raises AttributeError.  Only the
success path updates `self._config` and persists it via `_save`. -/
def update (env : UpdateEnv) (st : SourceState) : Except SourceState SourceState :=
  let st1 : SourceState := { st with mem_data := [], mem_info := [], ports := [], utils := [] }
  match env.manifest with
  | none => .error st1
  | some assets =>
    let st2 := assets.foldl assetStep st1
    match alGet st2.mem_data "ports.md" with
    | none => .error st2
    | some _ =>
      match env.portsMd with
      | none => .error st2
      | some text =>
        let lines := ((pySplit '\n' text).map pyStrip).filter (fun l => l ≠ "")
        match infoLoop st2 lines with
        | .error stc => .error stc
        | .ok st3 =>
          let cfg : SourceConfig :=
            { st3.config with
              version := PortMasterV1.VERSION
              data := ⟨st3.ports, st3.utils, st3.mem_info, st3.mem_data⟩
              last_checked := some env.now }
          .ok { st3 with config := cfg, file := cfg }

/-- The state an `update()` call left behind, whether it returned or
raised. -/
def exceptState : Except SourceState SourceState → SourceState
  | .error s => s
  | .ok s => s

/-- Whether the call raised. -/
def isExceptError : Except SourceState SourceState → Bool
  | .error _ => true
  | .ok _ => false

/-- Result of `PortMasterV1.port_info` (harbourmaster.py lines 254-257). -/
inductive PortLookup where
  /-- the `assert port_name in self.ports` failed (AssertionError
  "... not found."). -/
  | notFound
  /-- the key passed the assert but `self._info` has no entry (KeyError). -/
  | keyError
  /-- the stored metadata record. -/
  | found (info : List (String × PVal))
deriving DecidableEq

/-- `PortMasterV1.port_info` (harbourmaster.py lines 254-257). -/
def port_info (st : SourceState) (port_name : String) : PortLookup :=
  if st.ports.contains port_name then
    match alGet st.mem_info port_name with
    | some v => .found v
    | none => .keyError
  else .notFound

/-! ## harbourmaster.py : PortMasterV1.download -/

/-- The remote responses a `download(port_name)` call observes:
the checksum-manifest fetch `fetch_text(... + '.md5')`, the artifact GET
status, its optional `content-length` header, the manifest-declared asset
size used as fallback, and the streamed body chunks (bytes). -/
structure DlEnv where
  md5Fetch : Option String
  portStatus : Nat
  contentLength : Option Nat
  assetSize : Nat
  chunks : List (List Nat)
deriving DecidableEq

/-- Outcome of a `download` call. -/
inductive DlOutcome where
  /-- returned `None` at the md5-manifest fetch; no file was created. -/
  | md5FetchFail
  /-- returned `None` on a non-200 artifact status; no file was created. -/
  | netFail
  /-- ZeroDivisionError in the progress line `int(length / total_length * 50)`
  (harbourmaster.py line 293) with the bytes written so far on disk. -/
  | progressCrash (written : List Nat)
  /-- checksum mismatch: the partial file was unlinked and `None`
  returned. -/
  | integrityFail
  /-- the local file path was returned; `content` is the file's bytes. -/
  | ok (content : List Nat)
deriving DecidableEq

/-- The local file left behind by a `download` call: `none` when it was
never created or was unlinked. -/
def dlFileAfter : DlOutcome → Option (List Nat)
  | .md5FetchFail => none
  | .netFail => none
  | .progressCrash w => some w
  | .integrityFail => none
  | .ok c => some c

/-- `total_length` (harbourmaster.py lines 276-280): the parsed
`content-length` header, falling back to the manifest-declared size. -/
def effTotalLength (env : DlEnv) : Nat :=
  match env.contentLength with
  | none => env.assetSize
  | some n => n

/-- `PortMasterV1.download` (harbourmaster.py lines 260-307).  `md5Hex` is
the hex digest of `hashlib.md5` (library code outside src/), fed
incrementally chunk by chunk, which equals the digest of the concatenated
bytes.  Each loop iteration writes the chunk and then evaluates the
progress expression, which divides by `total_length`; with a nonempty body
and a zero total length the first iteration raises ZeroDivisionError after
writing its chunk.  Otherwise the accumulated digest is compared with the
stripped manifest text: on mismatch the file is unlinked and `None`
returned, on a match the path is returned. -/
def download (md5Hex : List Nat → String) (env : DlEnv) : DlOutcome :=
  match env.md5Fetch with
  | none => .md5FetchFail
  | some src =>
    let md5_source := pyStrip src
    if env.portStatus ≠ 200 then .netFail
    else
      match env.chunks, effTotalLength env with
      | c0 :: _, 0 => .progressCrash c0
      | chunks, _ =>
        let content := chunks.flatten
        if md5Hex content ≠ md5_source then .integrityFail
        else .ok content

/-! ## Concrete records used by individual claims -/

/-- The version-1 document of claim C7. -/
def c7input : JObj :=
  [("version", .int 1), ("source", .str "repo/Quake.zip"), ("md5", .str "abc123"),
   ("attr", .obj [("runtime", .str "blank")])]

/-- A canonical record with a set boolean `rtr` and `version = 1` (C2). -/
def c2base : PortInfo :=
  ⟨1, some "Blue", some ["a"], none,
   ⟨"T", "", "", [], "", [], true, some "r", []⟩, none, none⟩

/-- A canonical record with `rtr = false` and `version = 0` (C2). -/
def c2other : PortInfo :=
  ⟨0, some "Red", none, none,
   ⟨"U", "", "", [], "", [], false, none, []⟩, none, none⟩

/-- A fully populated canonical record (C2 witness, left side). -/
def c2wbase : PortInfo :=
  ⟨2, some "n", some ["i"], some ["o"],
   ⟨"t", "d", "in", ["g"], "p", [("k", "v")], true, some "rt", ["rq"]⟩,
   some ⟨"s", "m", "st"⟩, some [("f", "1")]⟩

/-- A fully populated canonical record (C2 witness, right side). -/
def c2wother : PortInfo :=
  ⟨3, some "n2", some ["i2"], some ["o2"],
   ⟨"t2", "d2", "in2", ["g2"], "p2", [("k2", "v2")], false, some "rt2", ["rq2"]⟩,
   none, none⟩

/-- Download environment of the C4 counterexample: checksum manifest fetched
as "00", artifact status 200, no content-length header, manifest-declared
size 0, one streamed chunk of one byte. -/
def c4env : DlEnv := ⟨some "00", 200, none, 0, [[120]]⟩

/-- Download environment of the C4 witness (matching digest): padded
manifest text, content-length 3, chunks of 2 and 1 bytes. -/
def c4wenv : DlEnv := ⟨some " ab ", 200, some 3, 0, [[1, 2], [3]]⟩

/-- Download environment of the C4 witness (mismatching digest). -/
def c4wenv2 : DlEnv := ⟨some "zz", 200, none, 9, [[7]]⟩

/-- A persisted source document with one cached port (C8, C9). -/
def c8config : SourceConfig :=
  ⟨"PortMaster", "url", 2, some 0,
   ⟨["a"], [], [("a", [("file", .str "a")])], [("a", ⟨"a", 1, "u"⟩)]⟩⟩

/-- A source whose in-memory indexes hold one cached port (C8). -/
def c8state : SourceState :=
  ⟨[("a", ⟨"a", 1, "u"⟩)], [("a", [("file", .str "a")])], ["a"], [], c8config, c8config⟩

/-- An environment whose manifest fetch fails (C8). -/
def c8env : UpdateEnv := ⟨none, some "x", 0⟩

/-- A source whose in-memory indexes hold one cached port (C9 witness). -/
def c9state : SourceState :=
  ⟨[], [("a", [("title", .str "T")])], ["a"], [], c8config, c8config⟩

/-! ## Helper lemmas -/

/-- The asset loop of `update()` touches only the in-memory indexes, never
`self._config` or the backing file. -/
theorem assetStep_config_file (s : SourceState) (a : Asset) :
    (assetStep s a).config = s.config ∧ (assetStep s a).file = s.file := by
  unfold assetStep
  split <;> exact ⟨rfl, rfl⟩

/-- Folding the asset loop preserves `self._config` and the backing file. -/
theorem foldl_assetStep_config_file (assets : List Asset) (s : SourceState) :
    (assets.foldl assetStep s).config = s.config ∧ (assets.foldl assetStep s).file = s.file := by
  induction assets generalizing s with
  | nil => exact ⟨rfl, rfl⟩
  | cons a rest ih =>
      simp only [List.foldl_cons]
      exact ⟨(ih (assetStep s a)).1.trans (assetStep_config_file s a).1,
             (ih (assetStep s a)).2.trans (assetStep_config_file s a).2⟩

/-! ## Claims -/

/-- C1: the claim says construction triggers `update()` whenever the elapsed
time since `last_checked` is at least the refresh threshold.  The code is
wrong: `datetime_compare` returns `(now - last_checked).seconds`, the
elapsed seconds modulo 86400 with whole days discarded, and compares with
strict `>`.  Evaluated here: with schema version matching (2) and
`last_checked` 174600 s (48 h 30 min) in the past — far beyond the 79200 s
threshold — construction loads the cached payload and performs no network
call; at exactly the threshold it also loads the cache; the fresh-side half
of the claim (elapsed below the threshold loads the cache) does hold, e.g.
at 3600 s. -/
theorem C1_staleness_eval :
    UPDATE_FREQUENCY = 79200
  ∧ (174600 : Int) ≥ UPDATE_FREQUENCY
  ∧ portmaster_init_action 2 (some 0) 174600 = InitAction.loadCache
  ∧ portmaster_init_action 2 (some 0) 79200 = InitAction.loadCache
  ∧ portmaster_init_action 2 (some 0) 3600 = InitAction.loadCache
  ∧ portmaster_init_action 2 (some 0) 80000 = InitAction.update := by
  decide

/-- C2, counterexample: the claim says a `base` field not at its empty
sentinel is never changed by `merge(base, other)`.  False for the boolean
field `rtr` (a set `True` is overwritten by `other`'s `False`, because the
boolean branch of the merge accepts any boolean on the right whenever the
left is boolean or `None`) and for `version` when both sides lie in
`{0, 1}` (Python's `True == 1`/`False == 0` make the boolean branch fire
for those ints). -/
theorem C2_counterexample :
    c2base.attr.rtr = true
  ∧ (port_info_merge c2base c2other).attr.rtr = false
  ∧ c2base.version = 1
  ∧ (port_info_merge c2base c2other).version = 0 := by
  exact ⟨rfl, rfl, rfl, rfl⟩

/-- C2, amended: for every non-boolean-valued field of the canonical
schema, a `base` value not at its empty sentinel survives
`merge(base, other)` unchanged, whatever `other` holds; the exceptions
forced by the counterexample are the boolean `rtr`, which `other` always
overwrites, and `version`, which is overwritten exactly when both versions
lie in `{0, 1}`.  `status` and `files` are never touched. -/
theorem C2_nonempty_preserved (base other : PortInfo) :
    ((base.name ≠ none ∧ base.name ≠ some "") →
        (port_info_merge base other).name = base.name)
  ∧ ((base.items ≠ none ∧ base.items ≠ some []) →
        (port_info_merge base other).items = base.items)
  ∧ ((base.items_opt ≠ none ∧ base.items_opt ≠ some []) →
        (port_info_merge base other).items_opt = base.items_opt)
  ∧ (¬((other.version = 1 ∨ other.version = 0) ∧ (base.version = 1 ∨ base.version = 0)) →
        (port_info_merge base other).version = base.version)
  ∧ (base.attr.title ≠ "" → (port_info_merge base other).attr.title = base.attr.title)
  ∧ (base.attr.desc ≠ "" → (port_info_merge base other).attr.desc = base.attr.desc)
  ∧ (base.attr.inst ≠ "" → (port_info_merge base other).attr.inst = base.attr.inst)
  ∧ (base.attr.porter ≠ "" → (port_info_merge base other).attr.porter = base.attr.porter)
  ∧ (base.attr.genres ≠ [] → (port_info_merge base other).attr.genres = base.attr.genres)
  ∧ (base.attr.image ≠ [] → (port_info_merge base other).attr.image = base.attr.image)
  ∧ (base.attr.reqs ≠ [] → (port_info_merge base other).attr.reqs = base.attr.reqs)
  ∧ ((base.attr.runtime ≠ none ∧ base.attr.runtime ≠ some "") →
        (port_info_merge base other).attr.runtime = base.attr.runtime)
  ∧ (port_info_merge base other).attr.rtr = other.attr.rtr
  ∧ (port_info_merge base other).status = base.status
  ∧ (port_info_merge base other).files = base.files := by
  refine ⟨fun h => ?_, fun h => ?_, fun h => ?_, fun h => ?_, fun h => ?_, fun h => ?_,
    fun h => ?_, fun h => ?_, fun h => ?_, fun h => ?_, fun h => ?_, fun h => ?_,
    rfl, rfl, rfl⟩
  · simp only [port_info_merge]
    rw [if_neg (by tauto)]
  · simp only [port_info_merge]
    rw [if_neg (by tauto)]
  · simp only [port_info_merge]
    rw [if_neg (by tauto)]
  · simp only [port_info_merge, mergeVersion]
    rw [if_neg h]
  · simp only [port_info_merge, mergeAttr]
    rw [if_neg h]
  · simp only [port_info_merge, mergeAttr]
    rw [if_neg h]
  · simp only [port_info_merge, mergeAttr]
    rw [if_neg h]
  · simp only [port_info_merge, mergeAttr]
    rw [if_neg h]
  · simp only [port_info_merge, mergeAttr]
    rw [if_neg h]
  · simp only [port_info_merge, mergeAttr]
    rw [if_neg h]
  · simp only [port_info_merge, mergeAttr]
    rw [if_neg h]
  · simp only [port_info_merge, mergeAttr, mergeRuntime]
    cases hb : other.attr.runtime with
    | none => rfl
    | some s =>
        show (if base.attr.runtime = none ∨ base.attr.runtime = some "" then some s
          else base.attr.runtime) = base.attr.runtime
        rw [if_neg (by tauto)]

/-- C2, witness: the amended theorem applied to two fully populated
canonical records: every populated non-boolean field of the left record
survives, while `rtr` takes the right record's value. -/
theorem C2_nonempty_preserved_witness :
    (port_info_merge c2wbase c2wother).name = some "n"
  ∧ (port_info_merge c2wbase c2wother).items = some ["i"]
  ∧ (port_info_merge c2wbase c2wother).items_opt = some ["o"]
  ∧ (port_info_merge c2wbase c2wother).version = 2
  ∧ (port_info_merge c2wbase c2wother).attr.title = "t"
  ∧ (port_info_merge c2wbase c2wother).attr.desc = "d"
  ∧ (port_info_merge c2wbase c2wother).attr.inst = "in"
  ∧ (port_info_merge c2wbase c2wother).attr.porter = "p"
  ∧ (port_info_merge c2wbase c2wother).attr.genres = ["g"]
  ∧ (port_info_merge c2wbase c2wother).attr.image = [("k", "v")]
  ∧ (port_info_merge c2wbase c2wother).attr.reqs = ["rq"]
  ∧ (port_info_merge c2wbase c2wother).attr.runtime = some "rt"
  ∧ (port_info_merge c2wbase c2wother).attr.rtr = false
  ∧ (port_info_merge c2wbase c2wother).status = some ⟨"s", "m", "st"⟩
  ∧ (port_info_merge c2wbase c2wother).files = some [("f", "1")] := by
  obtain ⟨h1, h2, h3, h4, h5, h6, h7, h8, h9, h10, h11, h12, h13, h14, h15⟩ :=
    C2_nonempty_preserved c2wbase c2wother
  exact ⟨h1 (by decide), h2 (by decide), h3 (by decide), h4 (by decide), h5 (by decide),
    h6 (by decide), h7 (by decide), h8 (by decide), h9 (by decide), h10 (by decide),
    h11 (by decide), h12 (by decide), h13, h14, h15⟩

/-- C3: the claim says `load` drops every unsafe items entry (leading `/`,
a `../` segment, empty) and keeps exactly the safe ones.  The code is
wrong: deleting an empty entry skips the element that slides into its
index, so `['', '']` keeps the second empty string — confirmed here
together with the claim's five listed concrete cases, which all behave as
the claim states. -/
theorem C3_sanitize_eval (g : List String) :
    loadGet (port_info_load g [("items", JVal.list [JVal.str "/etc/passwd"])]) "items"
      = some (JVal.list [])
  ∧ loadGet (port_info_load g [("items", JVal.list [JVal.str "../secret"])]) "items"
      = some (JVal.list [])
  ∧ loadGet (port_info_load g [("items", JVal.list [JVal.str "a/../b"])]) "items"
      = some (JVal.list [])
  ∧ loadGet (port_info_load g [("items", JVal.list [JVal.str ""])]) "items"
      = some (JVal.list [])
  ∧ loadGet (port_info_load g [("items", JVal.list [JVal.str "sub/dir/file.txt"])]) "items"
      = some (JVal.list [JVal.str "sub/dir/file.txt"])
  ∧ loadGet (port_info_load g [("items", JVal.list [JVal.str "", JVal.str ""])]) "items"
      = some (JVal.list [JVal.str ""]) := by
  exact ⟨rfl, rfl, rfl, rfl, rfl, rfl⟩

/-- C4, counterexample: the claim says every `download()` whose streamed
digest differs from the manifest checksum deletes the partial file and
signals IntegrityError.  At this input (no content-length header and a
manifest-declared size of 0, one nonempty chunk, digest "ff" against
manifest "00") the progress expression divides by zero: the call raises
ZeroDivisionError and the partial file is left on disk. -/
theorem C4_counterexample :
    (fun _ : List Nat => "ff") [120] ≠ pyStrip "00"
  ∧ download (fun _ => "ff") c4env = DlOutcome.progressCrash [120]
  ∧ dlFileAfter (download (fun _ => "ff") c4env) = some [120] := by
  exact ⟨by decide, rfl, rfl⟩

/-- C4, amended: provided the effective total length is nonzero or no bytes
arrive (so the progress division cannot raise), a digest mismatch deletes
the partial file and fails with the IntegrityError indicator, and a match
returns the local file whose size equals the number of bytes received. -/
theorem C4_download_checksum (md5Hex : List Nat → String) (env : DlEnv) (m : String)
    (hm : env.md5Fetch = some m) (hok : env.portStatus = 200)
    (hlen : effTotalLength env ≠ 0 ∨ env.chunks = []) :
    (md5Hex env.chunks.flatten ≠ pyStrip m →
        download md5Hex env = DlOutcome.integrityFail
      ∧ dlFileAfter (download md5Hex env) = none)
  ∧ (md5Hex env.chunks.flatten = pyStrip m →
        download md5Hex env = DlOutcome.ok env.chunks.flatten
      ∧ dlFileAfter (download md5Hex env) = some env.chunks.flatten
      ∧ (env.chunks.flatten).length = (env.chunks.map List.length).sum) := by
  have hd : download md5Hex env =
      if md5Hex env.chunks.flatten ≠ pyStrip m then DlOutcome.integrityFail
      else DlOutcome.ok env.chunks.flatten := by
    unfold download
    rw [hm, hok]
    simp only [ne_eq, not_true_eq_false, if_false, reduceIte]
    cases hcs : env.chunks with
    | nil => rfl
    | cons c0 cr =>
        rcases hlen with hne | hnil
        · cases hn : effTotalLength env with
          | zero => exact absurd hn hne
          | succ n => rfl
        · rw [hcs] at hnil
          exact absurd hnil (by simp)
  constructor
  · intro hne
    rw [hd, if_pos hne]
    exact ⟨rfl, rfl⟩
  · intro heq
    rw [hd, if_neg (by simp [heq])]
    exact ⟨rfl, rfl, (List.length_flatten env.chunks)⟩

/-- C4, witness: the amended theorem at two concrete environments — a
matching digest returns the 3-byte file (2-byte plus 1-byte chunks), a
mismatching digest fails with the IntegrityError indicator and no file. -/
theorem C4_download_checksum_witness :
    (download (fun _ => "ab") c4wenv = DlOutcome.ok [1, 2, 3]
      ∧ dlFileAfter (download (fun _ => "ab") c4wenv) = some [1, 2, 3]
      ∧ ([1, 2, 3] : List Nat).length = ([[1, 2], [3]].map List.length).sum)
  ∧ (download (fun _ => "ab") c4wenv2 = DlOutcome.integrityFail
      ∧ dlFileAfter (download (fun _ => "ab") c4wenv2) = none) := by
  refine ⟨?_, ?_⟩
  · exact (C4_download_checksum (fun _ => "ab") c4wenv " ab " rfl rfl
      (Or.inl (by decide))).2 rfl
  · exact (C4_download_checksum (fun _ => "ab") c4wenv2 "zz" rfl rfl
      (Or.inl (by decide))).1 (by decide)

/-- C5: merging a canonical PortInfo record with itself leaves every root
field and every attr field unchanged. -/
theorem C5_merge_idempotent (R : PortInfo) : port_info_merge R R = R := by
  obtain ⟨v, n, it, io, ⟨t, d, ins, g, p, im, rt, ru, rq⟩, s, f⟩ := R
  simp only [port_info_merge, mergeAttr, mergeVersion, mergeRuntime]
  cases ru <;> simp [ite_self]

/-- C6: parsing the single line
`Title_F="Half_Life ." Desc="A game" locat="halflife.zip"` yields title
"Half Life" (trailing 2-character marker stripped, underscores to spaces),
the `opengl` flag set by the `title_f` alias, desc "A game", and file
"halflife.zip" via the `locat` alias. -/
theorem C6_parse_halflife :
    alGet (parse_port_info "Title_F=\"Half_Life .\" Desc=\"A game\" locat=\"halflife.zip\"")
        "title" = some (PVal.str "Half Life")
  ∧ alGet (parse_port_info "Title_F=\"Half_Life .\" Desc=\"A game\" locat=\"halflife.zip\"")
        "opengl" = some (PVal.flag true)
  ∧ alGet (parse_port_info "Title_F=\"Half_Life .\" Desc=\"A game\" locat=\"halflife.zip\"")
        "desc" = some (PVal.str "A game")
  ∧ alGet (parse_port_info "Title_F=\"Half_Life .\" Desc=\"A game\" locat=\"halflife.zip\"")
        "file" = some (PVal.str "halflife.zip") := by
  exact ⟨rfl, rfl, rfl, rfl⟩

/-- C7: loading the version-1 document
`{"version":1,"source":"repo/Quake.zip","md5":"abc123","attr":{"runtime":"blank"}}`
migrates it: `name` is the trailing segment of the dropped `source`,
the legacy `md5` is promoted into a `status` record, the `"blank"` runtime
sentinel becomes null, and `version` becomes 2. -/
theorem C7_migration (g : List String) :
    loadGet (port_info_load g c7input) "name" = some (JVal.str "Quake.zip")
  ∧ loadGet2 (port_info_load g c7input) "status" "md5" = some (JVal.str "abc123")
  ∧ loadGet2 (port_info_load g c7input) "attr" "runtime" = some JVal.null
  ∧ loadGet (port_info_load g c7input) "version" = some (JVal.int 2) := by
  exact ⟨rfl, rfl, rfl, rfl⟩

/-- C8, counterexample: the claim says a failed fetch step leaves the
source's prior in-memory state untouched.  False: `update()` resets the
four in-memory indexes to empty BEFORE discovering that the manifest fetch
returned `None`, so after the failure the previously cached port list is
gone (the persisted document, by contrast, really is untouched). -/
theorem C8_counterexample :
    isExceptError (update c8env c8state) = true
  ∧ c8state.ports = ["a"]
  ∧ (exceptState (update c8env c8state)).ports = []
  ∧ (exceptState (update c8env c8state)).mem_data = []
  ∧ (exceptState (update c8env c8state)).mem_info = []
  ∧ (exceptState (update c8env c8state)).ports ≠ c8state.ports := by
  exact ⟨rfl, rfl, rfl, rfl, rfl, by decide⟩

/-- C8, amended: when the manifest fetch or the ports.md fetch fails,
`update()` terminates with an exception and the persisted document and the
in-memory `self._config` are untouched — but the in-memory indexes are not:
after a failed manifest fetch they are empty. -/
theorem C8_fetch_failure_persists_nothing (env : UpdateEnv) (st : SourceState)
    (h : env.manifest = none ∨ env.portsMd = none) :
    isExceptError (update env st) = true
  ∧ (exceptState (update env st)).config = st.config
  ∧ (exceptState (update env st)).file = st.file
  ∧ (env.manifest = none →
        (exceptState (update env st)).mem_data = []
      ∧ (exceptState (update env st)).mem_info = []
      ∧ (exceptState (update env st)).ports = []
      ∧ (exceptState (update env st)).utils = []) := by
  cases hman : env.manifest with
  | none =>
      have hupd : update env st =
          .error { st with mem_data := [], mem_info := [], ports := [], utils := [] } := by
        unfold update
        rw [hman]
      rw [hupd]
      exact ⟨rfl, rfl, rfl, fun _ => ⟨rfl, rfl, rfl, rfl⟩⟩
  | some assets =>
      rcases h with h | h
      · rw [hman] at h
        exact Option.noConfusion h
      · have hupd : update env st =
            .error (assets.foldl assetStep
              { st with mem_data := [], mem_info := [], ports := [], utils := [] }) := by
          unfold update
          rw [hman, h]
          cases hget : alGet (assets.foldl assetStep
              { st with mem_data := [], mem_info := [], ports := [], utils := [] }).mem_data
              "ports.md" with
          | none =>
              show (match alGet (assets.foldl assetStep
                { st with mem_data := [], mem_info := [], ports := [], utils := [] }).mem_data
                "ports.md" with
                | none => Except.error (assets.foldl assetStep
                    { st with mem_data := [], mem_info := [], ports := [], utils := [] })
                | some _ => Except.error (assets.foldl assetStep
                    { st with mem_data := [], mem_info := [], ports := [], utils := [] })) = _
              rw [hget]
          | some e =>
              show (match alGet (assets.foldl assetStep
                { st with mem_data := [], mem_info := [], ports := [], utils := [] }).mem_data
                "ports.md" with
                | none => Except.error (assets.foldl assetStep
                    { st with mem_data := [], mem_info := [], ports := [], utils := [] })
                | some _ => Except.error (assets.foldl assetStep
                    { st with mem_data := [], mem_info := [], ports := [], utils := [] })) = _
              rw [hget]
        rw [hupd]
        have hcf := foldl_assetStep_config_file assets
          { st with mem_data := [], mem_info := [], ports := [], utils := [] }
        exact ⟨rfl, hcf.1, hcf.2, fun hcon => Option.noConfusion hcon⟩

/-- C8, witness: the amended theorem at a source with one cached port and a
failing manifest fetch. -/
theorem C8_fetch_failure_witness :
    isExceptError (update c8env c8state) = true
  ∧ (exceptState (update c8env c8state)).config = c8state.config
  ∧ (exceptState (update c8env c8state)).file = c8state.file := by
  have h := C8_fetch_failure_persists_nothing c8env c8state (Or.inl rfl)
  exact ⟨h.1, h.2.1, h.2.2.1⟩

/-- C9: `port_info(key)` fails with the not-found assertion for every key
absent from the source's ports list, and returns the stored metadata record
for every key present (whenever one is stored under that key). -/
theorem C9_port_info_lookup (st : SourceState) (k : String) :
    (k ∉ st.ports → port_info st k = PortLookup.notFound)
  ∧ (k ∈ st.ports → ∀ v, alGet st.mem_info k = some v → port_info st k = PortLookup.found v) := by
  constructor
  · intro h
    have hc : st.ports.contains k = false := by
      simp
      exact h
    unfold port_info
    rw [hc]
    rfl
  · intro h v hv
    have hc : st.ports.contains k = true := List.elem_eq_true_of_mem h
    unfold port_info
    rw [hc, hv]
    rfl

/-- C9, witness: on a source whose ports list holds exactly "a" with a
stored record, "b" is rejected as not found and "a" returns the record. -/
theorem C9_port_info_lookup_witness :
    port_info c9state "b" = PortLookup.notFound
  ∧ port_info c9state "a" = PortLookup.found [("title", PVal.str "T")] := by
  exact ⟨(C9_port_info_lookup c9state "b").1 (by decide),
         (C9_port_info_lookup c9state "a").2 (by decide) _ rfl⟩

/-- C10: `merge(base, other)` leaves `base`'s root fields `status` and
`files` unchanged, whatever the two records hold there (the root merge loop
breaks on reaching `attr`, before either field), including when `base`'s is
null and `other`'s is populated. -/
theorem C10_merge_frame_status_files (base other : PortInfo) :
    (port_info_merge base other).status = base.status
  ∧ (port_info_merge base other).files = base.files := by
  exact ⟨rfl, rfl⟩

end Harbourmaster
